import Mathlib

/-!
Verification development for the create-cloud-deploy-release GitHub action.

The development shallowly embeds the two source modules that carry the logic of
the action:

* `src/output-parser.ts` — `parseCreateReleaseResponse`, which interprets the
  captured stdout of the gcloud release-creation command;
* `src/main.ts` — `run`, which validates the action inputs, assembles the
  gcloud argument list, executes it and publishes the outputs, together with
  `src/utils.ts` (`getDefaultAnnotations` and `getDefaultLabels`).

External collaborators (the JSON parser of the JavaScript runtime, the
actions-utils helpers `presence`, `errorMessage`, `joinKVString`, `parseFlags`,
`parseKVString`, and the subprocess runner) are modelled at their interfaces:
`JSON.parse` and `parseFlags` are abstract function parameters, key-value
records arrive already decoded as association lists, and process execution is a
function from the argument list to a captured result.  JavaScript string
primitives (`split`, `trim`, `toLowerCase`) are given executable char-list
models so that every definition evaluates inside the kernel.
-/

/-- Model of JavaScript `String.prototype.split` with a one-character
separator, on char lists: every occurrence of the separator splits, empty
pieces are kept, and the empty string yields one empty piece. -/
def splitOnChar (c : Char) : List Char → List (List Char)
  | [] => [[]]
  | x :: xs =>
    match splitOnChar c xs with
    | [] => if x = c then [[], [x]] else [[x]]
    | h :: t => if x = c then [] :: h :: t else (x :: h) :: t

/-- JavaScript `s.split(c)` for a one-character separator. -/
def jsSplit (c : Char) (s : String) : List String :=
  (splitOnChar c s.data).map String.mk

/-- JavaScript `s.trim()`: drop whitespace from both ends. -/
def jsTrim (s : String) : String :=
  String.mk (((s.data.dropWhile Char.isWhitespace).reverse.dropWhile Char.isWhitespace).reverse)

/-- JavaScript `s.toLowerCase()` (ASCII model, which covers the values the
source applies it to). -/
def lowerStr (s : String) : String :=
  String.mk (s.data.map Char.toLower)

/-- actions-utils `presence`: `(str or empty).trim() or undefined` — the
trimmed string when it is non-blank, otherwise `none`. -/
def presence (s : Option String) : Option String :=
  let t := jsTrim (s.getD "")
  if t = "" then none else some t

/-- actions-utils `errorMessage` extracts the message of a raised error.
Errors are carried in this embedding as their message strings, so the
extraction is the identity. -/
def errorMessage (msg : String) : String := msg

/-- A decoded `key=value` record (the output of actions-utils
`parseKVString`), kept as an association list in insertion order; keys are
unique in every record produced by the real decoder. -/
abbrev KV := List (String × String)

/-- First-match lookup of a key in a record, the analogue of `record[key]`. -/
def kvLookup (k : String) : KV → Option String
  | [] => none
  | (a, b) :: t => if k = a then some b else kvLookup k t

/-- JavaScript spread merge `Object.assign(\x7b\x7d, base, ovr)`: keys of
`base` keep their position but take the value from `ovr` when `ovr` also binds
them, and keys bound only in `ovr` follow in the order of `ovr`. -/
def objectAssign (base ovr : KV) : KV :=
  base.map (fun p => match kvLookup p.1 ovr with | some v => (p.1, v) | none => p)
    ++ ovr.filter (fun q => (kvLookup q.1 base).isNone)

/-- actions-utils `joinKVString`: join the `k=v` segments with commas
(`src/main.ts` passes no separator, so the default `,` is used). -/
def joinKVString (kv : KV) : String :=
  String.intercalate "," (kv.map (fun p => p.1 ++ "=" ++ p.2))

/-- The GitHub environment values that `src/utils.ts` reads through
`process.env` (`GITHUB_SERVER_URL`, `GITHUB_REPOSITORY`, `GITHUB_SHA`). -/
structure GithubEnv where
  serverUrl : String
  repository : String
  sha : String

/-- `getDefaultAnnotations` from `src/utils.ts`: the commit URL and the git
sha, in that insertion order. -/
def getDefaultAnnotations (env : GithubEnv) : KV :=
  [("commit", env.serverUrl ++ "/" ++ env.repository ++ "/commit/" ++ env.sha),
   ("git-sha", env.sha)]

/-- `getDefaultLabels` from `src/utils.ts`: the raw values, filtered to the
truthy ones and lower-cased. -/
def getDefaultLabels : KV :=
  [("managed-by", "github-actions")].filterMap
    (fun p => if p.2 ≠ "" then some (p.1, lowerStr p.2) else none)

/-- Parsed JSON values, as produced by `JSON.parse` (numbers are modelled as
integers; no claim depends on numeric payloads). -/
inductive Json where
  | null
  | bool (b : Bool)
  | num (n : Int)
  | str (s : String)
  | arr (elems : List Json)
  | obj (fields : List (String × Json))

/-- Field lookup inside a parsed JSON object (objects produced by `JSON.parse`
have unique keys). -/
def jsonField (k : String) : List (String × Json) → Option Json
  | [] => none
  | (a, b) :: t => if k = a then some b else jsonField k t

/-- JavaScript property access `v.name` on a parsed value: reading a property
of `undefined` or of `null` raises a TypeError, an object yields its field
(`undefined` when absent), and every other value yields `undefined`. -/
def jsDotName : Option Json → Except String (Option Json)
  | none => .error "cannot read properties of undefined (reading name)"
  | some .null => .error "cannot read properties of null (reading name)"
  | some (.obj fields) => .ok (jsonField "name" fields)
  | some _ => .ok none

/-- The name selection of `src/output-parser.ts` line 39:
`Array.isArray(outputJSON) ? outputJSON[0].name : outputJSON.name`. -/
def selectReleaseName (j : Json) : Except String (Option Json) :=
  match j with
  | .arr elems => jsDotName elems.head?
  | _ => jsDotName (some j)

/-- JavaScript truthiness test `!name` on a property-access result. -/
def jsFalsy : Option Json → Bool
  | none => true
  | some .null => true
  | some (.bool b) => !b
  | some (.num n) => n == 0
  | some (.str s) => s == ""
  | some (.arr _) => false
  | some (.obj _) => false

/-- The element of the parsed payload that the parser inspects: index 0 of an
array, the value itself otherwise. -/
def selectedElem (j : Json) : Option Json :=
  match j with
  | .arr elems => elems.head?
  | _ => some j

/-- Whether a parsed JSON value carries a `name` field (only objects do). -/
def hasNameField : Json → Bool
  | .obj fields => (jsonField "name" fields).isSome
  | _ => false

/-- `CreateCloudDeployReleaseOutputs` of `src/main.ts`; the current parser
fills both fields on every success. -/
structure CreateCloudDeployReleaseOutputs where
  name : String
  link : String
deriving DecidableEq, Repr

/-- The body of the `try` block of `parseCreateReleaseResponse`
(`src/output-parser.ts` lines 31 to 57), over the already-trimmed stdout:
reject absent or literally empty payloads, parse the JSON (the parse function
of the runtime is the abstract parameter `jsonParse`), select the name, demand
a truthy name that splits on `/` into exactly 8 fields, and build the console
link from fields 3, 5, 7 and 1.  A truthy non-string name makes `name.split`
raise a TypeError, modelled by the final error case. -/
def parseReleaseBody (jsonParse : String → Except String Json) :
    Option String → Except String CreateCloudDeployReleaseOutputs
  | none => .error "no output from create release command"
  | some s =>
    if s = "\x7b\x7d" ∨ s = "[]" then
      .error "no output from create release command"
    else
      match jsonParse s with
      | .error e => .error e
      | .ok j =>
        match selectReleaseName j with
        | .error e => .error e
        | .ok nameVal =>
          if jsFalsy nameVal then .error "couldn\x27t parse release name"
          else
            match nameVal with
            | some (.str n) =>
              let nameSplit := jsSplit '/' n
              if nameSplit.length ≠ 8 then
                .error ("couldn\x27t parse release name, unexpected format: " ++ n)
              else
                .ok { name := n
                      link := "https://console.cloud.google.com/deploy/delivery-pipelines"
                        ++ "/" ++ nameSplit.getD 3 "" ++ "/" ++ nameSplit.getD 5 ""
                        ++ "/releases/" ++ nameSplit.getD 7 "" ++ "?project=" ++ nameSplit.getD 1 "" }
            | _ => .error "name.split is not a function"

/-- JavaScript template interpolation of a possibly-undefined string. -/
def stdoutText : Option String → String
  | none => "undefined"
  | some s => s

/-- `parseCreateReleaseResponse` from `src/output-parser.ts`: the stdout is
first passed through `presence` (reassigning the local), the try body runs,
and any raised error is rewrapped by the catch clause with the offending
stdout appended. -/
def parseCreateReleaseResponse (jsonParse : String → Except String Json)
    (stdout : Option String) : Except String CreateCloudDeployReleaseOutputs :=
  let trimmed := presence stdout
  match parseReleaseBody jsonParse trimmed with
  | .ok o => .ok o
  | .error e =>
    .error ("failed to parse create release response: " ++ errorMessage e
      ++ ", stdout: " ++ stdoutText trimmed)

/-- The action inputs of `src/main.ts` lines 78 to 96, after the typed
decoding done at read time: `parseKVString` results are records, the boolean
input is a Bool, and `gcloud_component` has been through `presence`. -/
structure Inputs where
  name : String
  delivery_pipeline : String
  source : String
  build_artifacts : String
  images : KV
  project_id : String
  region : String
  disable_initial_rollout : Bool
  gcs_source_staging_dir : String
  skaffold_file : String
  annotations : KV
  labels : KV
  description : String
  deploy_parameters : KV
  flags : String
  gcloud_component : Option String
  gcloud_version : String

/-- The input validation of `src/main.ts` lines 99 to 115, in source order:
release name, delivery pipeline, the exactly-one rule for build artifacts
versus images, and the gcloud component enumeration. -/
def validateInputs (inp : Inputs) : Except String Unit :=
  if inp.name = "" then .error "No release name set."
  else if inp.delivery_pipeline = "" then .error "No delivery pipeline set."
  else if inp.build_artifacts = "" ∧ inp.images = [] then
    .error "One of `build_artifacts` and `images` inputs must be supplied."
  else if inp.build_artifacts ≠ "" ∧ inp.images ≠ [] then
    .error "Both `build_artifacts` and `images` inputs set - please select only one."
  else
    match inp.gcloud_component with
    | some c =>
      if c ≠ "alpha" ∧ c ≠ "beta" then
        .error ("invalid input received for gcloud_component: " ++ c)
      else .ok ()
    | none => .ok ()

/-- The `cmd.unshift(gcloudComponent)` of `src/main.ts` line 186: prepend the
component selector when one was supplied. -/
def withComponent (c : Option String) (cmd : List String) : List String :=
  match c with
  | some s => s :: cmd
  | none => cmd

/-- The command assembly of `src/main.ts` lines 118 to 171 plus the component
prepend of line 186: base tokens, then each optional flag in source order,
the always-emitted annotations and labels (defaults merged with the user
records exactly as `Object.assign(\x7b\x7d, defaults, user)`), the description,
the parsed extra flags (`flagList` stands for the `parseFlags` result, consulted
only when the raw `flags` input is truthy), and finally the forced
`--format json`. -/
def buildCmd (inp : Inputs) (env : GithubEnv) (flagList : List String) : List String :=
  withComponent inp.gcloud_component
    (["deploy", "releases", "create", inp.name, "--delivery-pipeline", inp.delivery_pipeline]
      ++ (if inp.project_id ≠ "" then ["--project", inp.project_id] else [])
      ++ (if inp.region ≠ "" then ["--region", inp.region] else [])
      ++ (if inp.build_artifacts ≠ "" then ["--build-artifacts", inp.build_artifacts] else [])
      ++ (if inp.images ≠ [] then ["--images", joinKVString inp.images] else [])
      ++ (if inp.source ≠ "" then ["--source", inp.source] else [])
      ++ (if inp.disable_initial_rollout then ["--disable-initial-rollout"] else [])
      ++ (if inp.gcs_source_staging_dir ≠ "" then
            ["--gcs-source-staging-dir", inp.gcs_source_staging_dir] else [])
      ++ (if inp.skaffold_file ≠ "" then ["--skaffold-file", inp.skaffold_file] else [])
      ++ (if inp.deploy_parameters ≠ [] then
            ["--deploy-parameters", joinKVString inp.deploy_parameters] else [])
      ++ ["--annotations", joinKVString (objectAssign (getDefaultAnnotations env) inp.annotations)]
      ++ ["--labels", joinKVString (objectAssign getDefaultLabels inp.labels)]
      ++ (if inp.description ≠ "" then ["--description", inp.description] else [])
      ++ (if inp.flags ≠ "" then flagList else [])
      ++ ["--format", "json"])

/-- The captured result of `getExecOutput`. -/
structure ExecOutput where
  exitCode : Int
  stdout : String
  stderr : String

/-- The execution-failure message of `src/main.ts` lines 205 to 208. -/
def gcloudCmdError (toolCommand : String) (cmd : List String) (out : ExecOutput) : String :=
  "failed to execute gcloud command `" ++ toolCommand ++ " " ++ String.intercalate " " cmd
    ++ "`: "
    ++ (if out.stderr ≠ "" then out.stderr
        else "command exited " ++ toString out.exitCode ++ ", but stderr had no output")

/-- The try block of `run` (`src/main.ts` lines 76 to 212) restricted to the
stages with observable dataflow: validation, command assembly, execution of
the assembled command through the subprocess collaborator `exec`, and parsing
of the captured stdout.  Tool installation and authentication are external
collaborators without influence on the produced value. -/
def runBody (inp : Inputs) (env : GithubEnv) (flagList : List String)
    (jsonParse : String → Except String Json) (toolCommand : String)
    (exec : List String → ExecOutput) : Except String CreateCloudDeployReleaseOutputs :=
  match validateInputs inp with
  | .error e => .error e
  | .ok _ =>
    let cmd := buildCmd inp env flagList
    let out := exec cmd
    if out.exitCode ≠ 0 then .error (gcloudCmdError toolCommand cmd out)
    else parseCreateReleaseResponse jsonParse (some out.stdout)

/-- The observable outcome of one run: either the single `setFailed` message,
or the two published outputs (`setOutput` for `name` and `link`, lines 211 and
212 of `src/main.ts`).  No other output publication exists in the source. -/
inductive RunOutcome where
  | failed (message : String)
  | success (name link : String)
deriving DecidableEq, Repr

/-- `run` from `src/main.ts`: the try body either publishes both outputs, or
its error reaches the catch clause of lines 213 to 215 and is reported through
`setFailed` wrapped in the fixed prefix. -/
def run (inp : Inputs) (env : GithubEnv) (flagList : List String)
    (jsonParse : String → Except String Json) (toolCommand : String)
    (exec : List String → ExecOutput) : RunOutcome :=
  match runBody inp env flagList jsonParse toolCommand exec with
  | .error e => .failed ("create-cloud-deploy-release failed with: " ++ errorMessage e)
  | .ok o => .success o.name o.link

/-- Substring containment: `pat` occurs contiguously inside `s`. -/
def strContains (s pat : String) : Prop :=
  ∃ pre post, s = (pre ++ pat) ++ post

/-- Executable check that `pat` leads the list `l`. -/
def charsLeadWith : List Char → List Char → Bool
  | [], _ => true
  | _ :: _, [] => false
  | a :: as, b :: bs => a == b && charsLeadWith as bs

/-- Executable check that `pat` occurs contiguously inside `l`. -/
def charsContain (pat : List Char) : List Char → Bool
  | [] => charsLeadWith pat []
  | b :: bs => charsLeadWith pat (b :: bs) || charsContain pat bs

/-- A command token list containing the adjacent pair `flag value`. -/
def hasFlagPair (cmd : List String) (flag value : String) : Prop :=
  ∃ pre post, cmd = pre ++ flag :: value :: post

/-- A JSON parse function that rejects every input, for exercising the
pre-parse branches. -/
def jpNoParse : String → Except String Json := fun _ => .error "unexpected token"

/-- A well-formed release resource name used by the concrete instances. -/
def relNameEx : String :=
  "projects/my-proj/locations/us-central1/deliveryPipelines/my-pipe/releases/rel-001"

/-- The console link the parser derives from `relNameEx`. -/
def relLinkEx : String :=
  "https://console.cloud.google.com/deploy/delivery-pipelines/us-central1/my-pipe/releases/rel-001?project=my-proj"

/-- JSON parse results for a stdout carrying a single release object. -/
def c3Jp : String → Except String Json := fun s =>
  if s = "OUT" then .ok (.obj [("name", .str relNameEx)]) else .error "invalid json"

/-- JSON parse results for a stdout whose release name has only 7 fields. -/
def c5Jp : String → Except String Json := fun s =>
  if s = "OUT7" then .ok (.obj [("name", .str "a/b/c/d/e/f/g")]) else .error "invalid json"

/-- JSON parse results for the stdout text `[null]`: a one-element array whose
only element is JSON null. -/
def c2Jp : String → Except String Json := fun s =>
  if s = "[null]" then .ok (.arr [.null]) else .error "invalid json"

/-- JSON parse results for a stdout carrying an object without a name field. -/
def c2wJp : String → Except String Json := fun s =>
  if s = "NONAME" then .ok (.obj [("etag", .str "abc123")]) else .error "invalid json"

/-- The textual two-element-array stdout used by the C4 instances (an empty
release object followed by an empty rollout object, with inner spaces so the
literal-empty-payload check does not fire). -/
def c4StdoutPair : String := "[\x7b \x7d,\x7b \x7d]"

/-- The textual single-object stdout used by the C4 instances. -/
def c4StdoutSingle : String := "\x7b \x7d"

/-- JSON parse results pairing `c4StdoutPair` with the two-element array and
`c4StdoutSingle` with its first element alone. -/
def c4Jp : String → Except String Json := fun s =>
  if s = c4StdoutPair then .ok (.arr [.obj [], .obj []])
  else if s = c4StdoutSingle then .ok (.obj [])
  else .error "invalid json"

/-- JSON parse results pairing a two-element array holding a complete release
with the same release alone. -/
def c4wJp : String → Except String Json := fun s =>
  if s = "PAIR" then .ok (.arr [.obj [("name", .str relNameEx)], .obj [("state", .str "PENDING")]])
  else if s = "SINGLE" then .ok (.obj [("name", .str relNameEx)])
  else .error "invalid json"

/-- JSON parse results for a release name with 8 fields whose fixed segments
are not the canonical labels. -/
def c10Jp : String → Except String Json := fun s =>
  if s = "OUT10" then .ok (.obj [("name", .str "a/b/c/d/e/f/g/h")]) else .error "invalid json"

/-- A concrete GitHub environment for the witness instances. -/
def envW : GithubEnv :=
  { serverUrl := "https://github.com", repository := "octo/app", sha := "ede1c221" }

/-- A concrete valid input set for the witness instances. -/
def inpW : Inputs :=
  { name := "release-001", delivery_pipeline := "delivery-pipeline", source := "src"
    build_artifacts := "artifacts.json", images := [], project_id := "my-proj"
    region := "us-central1", disable_initial_rollout := false, gcs_source_staging_dir := ""
    skaffold_file := "", annotations := [], labels := [], description := ""
    deploy_parameters := [], flags := "--verbosity debug", gcloud_component := some "alpha"
    gcloud_version := "" }

/-- The `parseFlags` result matching the `flags` input of `inpW`. -/
def flagListW : List String := ["--verbosity", "debug"]

/-- The valid input set extended with user annotations and labels that
collide with the defaults. -/
def inpKV : Inputs :=
  { inpW with annotations := [("git-sha", "override-sha"), ("team", "dev")]
              labels := [("managed-by", "custom"), ("env", "prod")] }

/-- The input set with the release name cleared, violating the first
validation rule. -/
def inpNoName : Inputs := { inpW with name := "" }

/-- A subprocess collaborator that succeeds and prints the `OUT` payload. -/
def execOkW : List String → ExecOutput := fun _ => ⟨0, "OUT", ""⟩

theorem data_append_str (s t : String) : (s ++ t).data = s.data ++ t.data := rfl

theorem head_append_char (p c : String) (ch : Char) (h : p.data.head? = some ch) :
    (p ++ c).data.head? = some ch := by
  rw [data_append_str]
  cases hp : p.data with
  | nil => rw [hp] at h; cases h
  | cons x xs =>
    rw [hp] at h
    simp only [List.head?_cons, Option.some.injEq] at h
    simp [h]

theorem str_ne_of_head (a b : String) (x y : Char) (ha : a.data.head? = some x)
    (hb : b.data.head? = some y) (hxy : x ≠ y) : a ≠ b := by
  intro he
  rw [he] at ha
  rw [ha] at hb
  exact hxy (Option.some.inj hb)

theorem strContains_wrap (a p b c : String) : strContains (((a ++ p) ++ b) ++ c) p :=
  ⟨a, b ++ c, String.append_assoc (a ++ p) b c⟩

theorem charsLeadWith_append (p r : List Char) : charsLeadWith p (p ++ r) = true := by
  induction p with
  | nil => rfl
  | cons a as ih => simp [charsLeadWith, ih]

theorem charsContain_parts (p : List Char) :
    ∀ pre post : List Char, charsContain p (pre ++ (p ++ post)) = true := by
  intro pre
  induction pre with
  | nil =>
    intro post
    cases hm : p ++ post with
    | nil =>
      have hp : p = [] := (List.append_eq_nil.mp hm).1
      simp [hp, charsContain, charsLeadWith]
    | cons b bs =>
      have := charsLeadWith_append p post
      rw [hm] at this
      simp [charsContain, hm, this]
  | cons c pre ih =>
    intro post
    simp [charsContain, ih post]

theorem strContains_chars {s pat : String} (h : strContains s pat) :
    charsContain pat.data s.data = true := by
  obtain ⟨pre, post, rfl⟩ := h
  rw [data_append_str, data_append_str, List.append_assoc]
  exact charsContain_parts pat.data pre.data post.data

theorem kvLookup_append (k : String) (l1 l2 : KV) :
    kvLookup k (l1 ++ l2) =
      match kvLookup k l1 with
      | some v => some v
      | none => kvLookup k l2 := by
  induction l1 with
  | nil => simp [kvLookup]
  | cons hd tl ih =>
    obtain ⟨a, b⟩ := hd
    by_cases h : k = a <;> simp [kvLookup, h, ih]

theorem kvLookup_map_override (ovr : KV) (k : String) (v : String)
    (h : kvLookup k ovr = some v) :
    ∀ base : KV,
      kvLookup k (base.map (fun p => match kvLookup p.1 ovr with | some w => (p.1, w) | none => p)) =
        match kvLookup k base with
        | some _ => some v
        | none => none := by
  intro base
  induction base with
  | nil => simp [kvLookup]
  | cons hd tl ih =>
    obtain ⟨a, b⟩ := hd
    by_cases hk : k = a
    · subst hk
      simp [List.map_cons, kvLookup, h]
    · cases hko : kvLookup a ovr <;> simp [kvLookup, hk, ih, hko]

theorem kvLookup_map_none (ovr : KV) (k : String) (h : kvLookup k ovr = none) :
    ∀ base : KV,
      kvLookup k (base.map (fun p => match kvLookup p.1 ovr with | some w => (p.1, w) | none => p)) =
        kvLookup k base := by
  intro base
  induction base with
  | nil => simp
  | cons hd tl ih =>
    obtain ⟨a, b⟩ := hd
    by_cases hk : k = a
    · subst hk
      simp [List.map_cons, kvLookup, h]
    · cases hko : kvLookup a ovr <;> simp [kvLookup, hk, ih, hko]

theorem kvLookup_filter_none (base : KV) (k : String) (h : kvLookup k base = none) :
    ∀ ovr : KV,
      kvLookup k (ovr.filter (fun q => (kvLookup q.1 base).isNone)) = kvLookup k ovr := by
  intro ovr
  induction ovr with
  | nil => simp
  | cons hd tl ih =>
    obtain ⟨a, b⟩ := hd
    by_cases hk : k = a
    · subst hk
      simp [List.filter, h, kvLookup]
    · cases hq : (kvLookup a base).isNone <;> simp [List.filter, hq, kvLookup, hk, ih]

theorem objectAssign_user_wins (base ovr : KV) (k v : String)
    (h : kvLookup k ovr = some v) : kvLookup k (objectAssign base ovr) = some v := by
  unfold objectAssign
  rw [kvLookup_append]
  rw [kvLookup_map_override ovr k v h base]
  cases hb : kvLookup k base with
  | some w => simp
  | none => simp [kvLookup_filter_none base k hb ovr, h]

theorem objectAssign_default_kept (base ovr : KV) (k : String)
    (h : kvLookup k ovr = none) : kvLookup k (objectAssign base ovr) = kvLookup k base := by
  unfold objectAssign
  rw [kvLookup_append]
  rw [kvLookup_map_none ovr k h base]
  cases hb : kvLookup k base with
  | some w => simp
  | none => simp [kvLookup_filter_none base k hb ovr, h]

theorem hasFlagPair_self (f v : String) (rest : List String) :
    hasFlagPair (f :: v :: rest) f v := ⟨[], rest, rfl⟩

theorem hasFlagPair_prepend (l : List String) {cmd : List String} {f v : String}
    (h : hasFlagPair cmd f v) : hasFlagPair (l ++ cmd) f v := by
  obtain ⟨pre, post, rfl⟩ := h
  exact ⟨l ++ pre, post, by rw [List.append_assoc]⟩

theorem hasFlagPair_extend {cmd : List String} {f v : String}
    (h : hasFlagPair cmd f v) (l : List String) : hasFlagPair (cmd ++ l) f v := by
  obtain ⟨pre, post, rfl⟩ := h
  exact ⟨pre, post ++ l, by simp [List.append_assoc]⟩

theorem hasFlagPair_cons (x : String) {cmd : List String} {f v : String}
    (h : hasFlagPair cmd f v) : hasFlagPair (x :: cmd) f v := by
  obtain ⟨pre, post, rfl⟩ := h
  exact ⟨x :: pre, post, rfl⟩

theorem parse_wrap_ok {jp : String → Except String Json} {s t : String}
    {o : CreateCloudDeployReleaseOutputs} (hp : presence (some s) = some t)
    (hbody : parseReleaseBody jp (some t) = .ok o) :
    parseCreateReleaseResponse jp (some s) = .ok o := by
  simp only [parseCreateReleaseResponse]
  rw [hp, hbody]

theorem parse_wrap_err {jp : String → Except String Json} {s t : String} {e : String}
    (hp : presence (some s) = some t)
    (hbody : parseReleaseBody jp (some t) = .error e) :
    parseCreateReleaseResponse jp (some s) =
      .error ((("failed to parse create release response: " ++ e) ++ ", stdout: ") ++ t) := by
  simp only [parseCreateReleaseResponse]
  rw [hp, hbody]
  simp only [errorMessage, stdoutText]

theorem parse_wrap_none {jp : String → Except String Json} {s : String}
    (hp : presence (some s) = none) :
    parseCreateReleaseResponse jp (some s) =
      .error ((("failed to parse create release response: "
        ++ "no output from create release command") ++ ", stdout: ") ++ "undefined") := by
  simp only [parseCreateReleaseResponse]
  rw [hp]
  simp only [parseReleaseBody, errorMessage, stdoutText]

theorem suffix_with (o : Option String) (x y z : List String) :
    ∃ pre, withComponent o ((x ++ y) ++ z) = (pre ++ y) ++ z := by
  cases o with
  | none => exact ⟨x, rfl⟩
  | some c => exact ⟨c :: x, by simp [withComponent]⟩

theorem hasFlagPair_withComponent (o : Option String) {l : List String} {f v : String}
    (h : hasFlagPair l f v) : hasFlagPair (withComponent o l) f v := by
  cases o with
  | none => exact h
  | some c => exact hasFlagPair_cons c h

/-- C1: for every stdout that is empty, blank, or exactly the literal text of
the empty object or the empty array, parseCreateReleaseResponse raises an
error whose message contains "no output from create release command"; it never
returns an empty-but-successful outcome for such input. -/
theorem c1_empty_stdout_fails (jp : String → Except String Json) (s : String)
    (h : jsTrim s = "" ∨ s = "\x7b\x7d" ∨ s = "[]") :
    ∃ e, parseCreateReleaseResponse jp (some s) = .error e ∧
      strContains e "no output from create release command" := by
  rcases h with h | h | h
  · have hp : presence (some s) = none := by simp [presence, h]
    exact ⟨_, parse_wrap_none hp, strContains_wrap _ _ _ _⟩
  · subst h
    have hp : presence (some "\x7b\x7d") = some "\x7b\x7d" := rfl
    have hbody : parseReleaseBody jp (some "\x7b\x7d") =
        .error "no output from create release command" := by
      simp [parseReleaseBody]
    exact ⟨_, parse_wrap_err hp hbody, strContains_wrap _ _ _ _⟩
  · subst h
    have hp : presence (some "[]") = some "[]" := rfl
    have hbody : parseReleaseBody jp (some "[]") =
        .error "no output from create release command" := by
      simp [parseReleaseBody]
    exact ⟨_, parse_wrap_err hp hbody, strContains_wrap _ _ _ _⟩

theorem c1_empty_stdout_fails_witness :
    (jsTrim "\x7b\x7d" = "" ∨ "\x7b\x7d" = "\x7b\x7d" ∨ ("\x7b\x7d" : String) = "[]") ∧
    ∃ e, parseCreateReleaseResponse jpNoParse (some "\x7b\x7d") = .error e ∧
      strContains e "no output from create release command" :=
  ⟨Or.inr (Or.inl rfl), c1_empty_stdout_fails jpNoParse "\x7b\x7d" (Or.inr (Or.inl rfl))⟩

/-- C3: for every stdout whose payload parses to a release whose name splits
on the slash into exactly 8 fields, parseCreateReleaseResponse succeeds with
the name unchanged and the console link built from the fields at zero-indexed
positions 3, 5, 7 and 1. -/
theorem c3_eight_field_name_success (jp : String → Except String Json)
    (s t : String) (j : Json) (n f0 f1 f2 f3 f4 f5 f6 f7 : String)
    (hp : presence (some s) = some t) (h1 : t ≠ "\x7b\x7d") (h2 : t ≠ "[]")
    (hjp : jp t = .ok j) (hsel : selectReleaseName j = .ok (some (.str n)))
    (hsplit : jsSplit '/' n = [f0, f1, f2, f3, f4, f5, f6, f7]) :
    parseCreateReleaseResponse jp (some s) =
      .ok { name := n
            link := "https://console.cloud.google.com/deploy/delivery-pipelines/"
              ++ f3 ++ "/" ++ f5 ++ "/releases/" ++ f7 ++ "?project=" ++ f1 } := by
  have hn : n ≠ "" := by
    intro h0
    rw [h0, show jsSplit '/' "" = [""] from rfl] at hsplit
    simp at hsplit
  apply parse_wrap_ok hp
  simp only [parseReleaseBody, if_neg (not_or.mpr ⟨h1, h2⟩), hjp, hsel]
  simp only [jsFalsy, if_neg (by simp [hn] : ¬ ((n == "") = true))]
  rw [hsplit]
  rw [if_neg (by simp : ¬ (([f0, f1, f2, f3, f4, f5, f6, f7] : List String).length ≠ 8))]
  rfl

theorem c3_eight_field_name_success_witness :
    presence (some "OUT") = some "OUT" ∧
    c3Jp "OUT" = .ok (.obj [("name", .str relNameEx)]) ∧
    jsSplit '/' relNameEx =
      ["projects", "my-proj", "locations", "us-central1", "deliveryPipelines",
       "my-pipe", "releases", "rel-001"] ∧
    parseCreateReleaseResponse c3Jp (some "OUT") = .ok ⟨relNameEx, relLinkEx⟩ :=
  ⟨rfl, rfl, rfl,
    c3_eight_field_name_success c3Jp "OUT" "OUT" (.obj [("name", .str relNameEx)]) relNameEx
      "projects" "my-proj" "locations" "us-central1" "deliveryPipelines" "my-pipe"
      "releases" "rel-001" rfl (by decide) (by decide) rfl rfl rfl⟩

/-- C5: for every stdout whose payload parses to a release with a truthy name
that splits on the slash into a number of fields other than 8,
parseCreateReleaseResponse fails with a message containing the unexpected
format text followed by that name. -/
theorem c5_wrong_field_count_fails (jp : String → Except String Json)
    (s t : String) (j : Json) (n : String)
    (hp : presence (some s) = some t) (h1 : t ≠ "\x7b\x7d") (h2 : t ≠ "[]")
    (hjp : jp t = .ok j) (hsel : selectReleaseName j = .ok (some (.str n)))
    (hn : n ≠ "") (hlen : (jsSplit '/' n).length ≠ 8) :
    ∃ e, parseCreateReleaseResponse jp (some s) = .error e ∧
      strContains e ("couldn\x27t parse release name, unexpected format: " ++ n) := by
  have hbody : parseReleaseBody jp (some t) =
      .error ("couldn\x27t parse release name, unexpected format: " ++ n) := by
    simp only [parseReleaseBody, if_neg (not_or.mpr ⟨h1, h2⟩), hjp, hsel]
    simp only [jsFalsy, if_neg (by simp [hn] : ¬ ((n == "") = true))]
    rw [if_pos hlen]
  exact ⟨_, parse_wrap_err hp hbody, strContains_wrap _ _ _ _⟩

theorem c5_wrong_field_count_fails_witness :
    c5Jp "OUT7" = .ok (.obj [("name", .str "a/b/c/d/e/f/g")]) ∧
    (jsSplit '/' "a/b/c/d/e/f/g").length = 7 ∧
    ∃ e, parseCreateReleaseResponse c5Jp (some "OUT7") = .error e ∧
      strContains e ("couldn\x27t parse release name, unexpected format: " ++ "a/b/c/d/e/f/g") :=
  ⟨rfl, rfl,
    c5_wrong_field_count_fails c5Jp "OUT7" "OUT7" (.obj [("name", .str "a/b/c/d/e/f/g")])
      "a/b/c/d/e/f/g" rfl (by decide) (by decide) rfl rfl (by decide) (by decide)⟩

/-- C10: the parser checks only the count of slash-delimited fields, never the
literal labels of the fixed segments: every stdout whose release name splits
into exactly 8 fields succeeds, with the link built from the fields at
zero-indexed positions 3, 5, 7 and 1 whatever the other fields contain. -/
theorem c10_only_field_count_matters (jp : String → Except String Json)
    (s t : String) (j : Json) (n : String)
    (hp : presence (some s) = some t) (h1 : t ≠ "\x7b\x7d") (h2 : t ≠ "[]")
    (hjp : jp t = .ok j) (hsel : selectReleaseName j = .ok (some (.str n)))
    (hlen : (jsSplit '/' n).length = 8) :
    parseCreateReleaseResponse jp (some s) =
      .ok { name := n
            link := "https://console.cloud.google.com/deploy/delivery-pipelines"
              ++ "/" ++ (jsSplit '/' n).getD 3 "" ++ "/" ++ (jsSplit '/' n).getD 5 ""
              ++ "/releases/" ++ (jsSplit '/' n).getD 7 ""
              ++ "?project=" ++ (jsSplit '/' n).getD 1 "" } := by
  have hn : n ≠ "" := by
    intro h0
    rw [h0, show jsSplit '/' "" = [""] from rfl] at hlen
    exact absurd hlen (by decide)
  apply parse_wrap_ok hp
  simp only [parseReleaseBody, if_neg (not_or.mpr ⟨h1, h2⟩), hjp, hsel]
  simp only [jsFalsy, if_neg (by simp [hn] : ¬ ((n == "") = true))]
  rw [if_neg (by simp [hlen] : ¬ ((jsSplit '/' n).length ≠ 8))]

theorem c10_only_field_count_matters_witness :
    c10Jp "OUT10" = .ok (.obj [("name", .str "a/b/c/d/e/f/g/h")]) ∧
    (jsSplit '/' "a/b/c/d/e/f/g/h").length = 8 ∧
    parseCreateReleaseResponse c10Jp (some "OUT10") =
      .ok ⟨"a/b/c/d/e/f/g/h",
        "https://console.cloud.google.com/deploy/delivery-pipelines/d/f/releases/h?project=b"⟩ :=
  ⟨rfl, rfl,
    c10_only_field_count_matters c10Jp "OUT10" "OUT10" (.obj [("name", .str "a/b/c/d/e/f/g/h")])
      "a/b/c/d/e/f/g/h" rfl (by decide) (by decide) rfl rfl rfl⟩

/-- C2 counterexample: the stdout text `[null]` parses as a non-empty JSON
array whose first (selected) element carries no name field, yet the parser
fails with the property-access TypeError of `null.name`, whose wrapped message
does not contain "couldn't parse release name"; the claim as stated is
therefore false at this input. -/
theorem c2_counterexample :
    c2Jp "[null]" = .ok (.arr [.null]) ∧
    selectedElem (.arr [.null]) = some .null ∧
    hasNameField .null = false ∧
    parseCreateReleaseResponse c2Jp (some "[null]") =
      .error "failed to parse create release response: cannot read properties of null (reading name), stdout: [null]" ∧
    ¬ strContains
        "failed to parse create release response: cannot read properties of null (reading name), stdout: [null]"
        "couldn\x27t parse release name" := by
  refine ⟨rfl, rfl, rfl, rfl, ?_⟩
  intro h
  exact absurd (strContains_chars h) (by decide)

/-- C2 (amended): for every stdout parsing as a JSON object, or as a
non-empty JSON array whose first element is taken, in which the selected
element has no name field, parseCreateReleaseResponse always fails; when the
selected element is not JSON null the failure message contains "couldn't
parse release name" (a null element fails too, but with the property-access
error of the runtime instead). -/
theorem c2_amended_missing_name_fails (jp : String → Except String Json)
    (s t : String) (j el : Json)
    (hp : presence (some s) = some t) (h1 : t ≠ "\x7b\x7d") (h2 : t ≠ "[]")
    (hjp : jp t = .ok j)
    (hshape : (∃ fs, j = .obj fs) ∨ (∃ x xs, j = .arr (x :: xs)))
    (hel : selectedElem j = some el)
    (hno : hasNameField el = false) :
    ∃ e, parseCreateReleaseResponse jp (some s) = .error e ∧
      (el ≠ .null → strContains e "couldn\x27t parse release name") := by
  have hnofield : ∀ fs, el = Json.obj fs → jsonField "name" fs = none := by
    intro fs hfs
    subst hfs
    cases hjf : jsonField "name" fs with
    | none => rfl
    | some v =>
      simp only [hasNameField, hjf, Option.isSome_some] at hno
      exact absurd hno (by decide)
  rcases hshape with ⟨fs, rfl⟩ | ⟨x, xs, rfl⟩
  · have helq : el = Json.obj fs := by
      simpa [selectedElem] using hel.symm
    have hbody : parseReleaseBody jp (some t) = .error "couldn\x27t parse release name" := by
      simp only [parseReleaseBody, if_neg (not_or.mpr ⟨h1, h2⟩), hjp, selectReleaseName,
        jsDotName, hnofield fs helq]
      rfl
    exact ⟨_, parse_wrap_err hp hbody, fun _ => strContains_wrap _ _ _ _⟩
  · have helq : el = x := by
      simpa [selectedElem] using hel.symm
    subst helq
    cases el with
    | null =>
      have hbody : parseReleaseBody jp (some t) =
          .error "cannot read properties of null (reading name)" := by
        simp only [parseReleaseBody, if_neg (not_or.mpr ⟨h1, h2⟩), hjp, selectReleaseName,
          List.head?_cons, jsDotName]
      exact ⟨_, parse_wrap_err hp hbody, fun hne => absurd rfl hne⟩
    | bool b =>
      have hbody : parseReleaseBody jp (some t) = .error "couldn\x27t parse release name" := by
        simp only [parseReleaseBody, if_neg (not_or.mpr ⟨h1, h2⟩), hjp, selectReleaseName,
          List.head?_cons, jsDotName]
        rfl
      exact ⟨_, parse_wrap_err hp hbody, fun _ => strContains_wrap _ _ _ _⟩
    | num m =>
      have hbody : parseReleaseBody jp (some t) = .error "couldn\x27t parse release name" := by
        simp only [parseReleaseBody, if_neg (not_or.mpr ⟨h1, h2⟩), hjp, selectReleaseName,
          List.head?_cons, jsDotName]
        rfl
      exact ⟨_, parse_wrap_err hp hbody, fun _ => strContains_wrap _ _ _ _⟩
    | str sv =>
      have hbody : parseReleaseBody jp (some t) = .error "couldn\x27t parse release name" := by
        simp only [parseReleaseBody, if_neg (not_or.mpr ⟨h1, h2⟩), hjp, selectReleaseName,
          List.head?_cons, jsDotName]
        rfl
      exact ⟨_, parse_wrap_err hp hbody, fun _ => strContains_wrap _ _ _ _⟩
    | arr elems =>
      have hbody : parseReleaseBody jp (some t) = .error "couldn\x27t parse release name" := by
        simp only [parseReleaseBody, if_neg (not_or.mpr ⟨h1, h2⟩), hjp, selectReleaseName,
          List.head?_cons, jsDotName]
        rfl
      exact ⟨_, parse_wrap_err hp hbody, fun _ => strContains_wrap _ _ _ _⟩
    | obj fs2 =>
      have hbody : parseReleaseBody jp (some t) = .error "couldn\x27t parse release name" := by
        simp only [parseReleaseBody, if_neg (not_or.mpr ⟨h1, h2⟩), hjp, selectReleaseName,
          List.head?_cons, jsDotName, hnofield fs2 rfl]
        rfl
      exact ⟨_, parse_wrap_err hp hbody, fun _ => strContains_wrap _ _ _ _⟩

theorem c2_amended_missing_name_fails_witness :
    c2wJp "NONAME" = .ok (.obj [("etag", .str "abc123")]) ∧
    hasNameField (.obj [("etag", .str "abc123")]) = false ∧
    ∃ e, parseCreateReleaseResponse c2wJp (some "NONAME") = .error e ∧
      ((Json.obj [("etag", .str "abc123")]) ≠ .null →
        strContains e "couldn\x27t parse release name") :=
  ⟨rfl, rfl,
    c2_amended_missing_name_fails c2wJp "NONAME" "NONAME"
      (.obj [("etag", .str "abc123")]) (.obj [("etag", .str "abc123")])
      rfl (by decide) (by decide) rfl (Or.inl ⟨_, rfl⟩) rfl rfl⟩

/-- C4 counterexample: parsing the two-element-array stdout and parsing the
first element alone do not yield exactly the same outcome when the release
object lacks a name, because the failure the catch clause rethrows embeds the
offending stdout text, which differs between the two inputs; the claim as
stated is therefore false at this input. -/
theorem c4_counterexample :
    c4Jp c4StdoutPair = .ok (.arr [.obj [], .obj []]) ∧
    c4Jp c4StdoutSingle = .ok (.obj []) ∧
    parseCreateReleaseResponse c4Jp (some c4StdoutPair) ≠
      parseCreateReleaseResponse c4Jp (some c4StdoutSingle) := by
  refine ⟨rfl, rfl, ?_⟩
  intro h
  have h1 : parseCreateReleaseResponse c4Jp (some c4StdoutPair) =
      .error "failed to parse create release response: couldn\x27t parse release name, stdout: [\x7b \x7d,\x7b \x7d]" := rfl
  have h2 : parseCreateReleaseResponse c4Jp (some c4StdoutSingle) =
      .error "failed to parse create release response: couldn\x27t parse release name, stdout: \x7b \x7d" := rfl
  rw [h1, h2] at h
  injection h with h3
  exact absurd h3 (by decide)

/-- C4 (amended): for every JSON release object r, parsing a stdout holding
the two-element array of r and a rollout object runs the try body to exactly
the same result as parsing a stdout holding r alone — the second element is
ignored — and on success the two full outcomes coincide exactly; on failure
both fail for the same reason but the rethrown messages differ in the
appended stdout text. -/
theorem c4_amended_rollout_ignored (jp : String → Except String Json)
    (s1 s2 t1 t2 : String) (fs : List (String × Json)) (roll : Json)
    (hp1 : presence (some s1) = some t1) (h11 : t1 ≠ "\x7b\x7d") (h12 : t1 ≠ "[]")
    (hjp1 : jp t1 = .ok (.arr [.obj fs, roll]))
    (hp2 : presence (some s2) = some t2) (h21 : t2 ≠ "\x7b\x7d") (h22 : t2 ≠ "[]")
    (hjp2 : jp t2 = .ok (.obj fs)) :
    parseReleaseBody jp (some t1) = parseReleaseBody jp (some t2) ∧
    (∀ o, parseReleaseBody jp (some t1) = .ok o →
      parseCreateReleaseResponse jp (some s1) = .ok o ∧
      parseCreateReleaseResponse jp (some s2) = .ok o) := by
  have hbb : parseReleaseBody jp (some t1) = parseReleaseBody jp (some t2) := by
    simp only [parseReleaseBody, if_neg (not_or.mpr ⟨h11, h12⟩),
      if_neg (not_or.mpr ⟨h21, h22⟩), hjp1, hjp2, selectReleaseName, List.head?_cons,
      jsDotName]
  refine ⟨hbb, fun o ho => ⟨parse_wrap_ok hp1 ho, parse_wrap_ok hp2 (hbb.symm.trans ho)⟩⟩

theorem c4_amended_rollout_ignored_witness :
    c4wJp "PAIR" = .ok (.arr [.obj [("name", .str relNameEx)], .obj [("state", .str "PENDING")]]) ∧
    c4wJp "SINGLE" = .ok (.obj [("name", .str relNameEx)]) ∧
    parseReleaseBody c4wJp (some "PAIR") = parseReleaseBody c4wJp (some "SINGLE") ∧
    (∀ o, parseReleaseBody c4wJp (some "PAIR") = .ok o →
      parseCreateReleaseResponse c4wJp (some "PAIR") = .ok o ∧
      parseCreateReleaseResponse c4wJp (some "SINGLE") = .ok o) :=
  ⟨rfl, rfl,
    c4_amended_rollout_ignored c4wJp "PAIR" "SINGLE" "PAIR" "SINGLE"
      [("name", .str relNameEx)] (.obj [("state", .str "PENDING")])
      rfl (by decide) (by decide) rfl rfl (by decide) (by decide) rfl⟩

/-- C6: with name and delivery pipeline supplied, validation rejects an input
set with neither build_artifacts nor images with the one-of message, rejects
an input set with both with the both-set message, and raises neither of these
errors when exactly one of the two is supplied. -/
theorem c6_exactly_one_of_artifacts_images (inp : Inputs)
    (hname : inp.name ≠ "") (hdp : inp.delivery_pipeline ≠ "") :
    ((inp.build_artifacts = "" ∧ inp.images = []) →
      validateInputs inp =
        .error "One of `build_artifacts` and `images` inputs must be supplied.") ∧
    ((inp.build_artifacts ≠ "" ∧ inp.images ≠ []) →
      validateInputs inp =
        .error "Both `build_artifacts` and `images` inputs set - please select only one.") ∧
    (((inp.build_artifacts ≠ "" ∧ inp.images = []) ∨
        (inp.build_artifacts = "" ∧ inp.images ≠ [])) →
      validateInputs inp ≠
        .error "One of `build_artifacts` and `images` inputs must be supplied." ∧
      validateInputs inp ≠
        .error "Both `build_artifacts` and `images` inputs set - please select only one.") := by
  have hne1 : ∀ c : String, ("invalid input received for gcloud_component: " ++ c) ≠
      "One of `build_artifacts` and `images` inputs must be supplied." := fun c =>
    str_ne_of_head _ _ 'i' 'O' (head_append_char _ c 'i' rfl) rfl (by decide)
  have hne2 : ∀ c : String, ("invalid input received for gcloud_component: " ++ c) ≠
      "Both `build_artifacts` and `images` inputs set - please select only one." := fun c =>
    str_ne_of_head _ _ 'i' 'B' (head_append_char _ c 'i' rfl) rfl (by decide)
  unfold validateInputs
  rw [if_neg hname, if_neg hdp]
  refine ⟨fun h => ?_, fun h => ?_, fun h => ?_⟩
  · rw [if_pos h]
  · rw [if_neg (fun hc => h.1 hc.1), if_pos h]
  · have hc1 : ¬ (inp.build_artifacts = "" ∧ inp.images = []) := by
      rcases h with ⟨hba, _⟩ | ⟨_, him⟩
      · exact fun hc => hba hc.1
      · exact fun hc => him hc.2
    have hc2 : ¬ (inp.build_artifacts ≠ "" ∧ inp.images ≠ []) := by
      rcases h with ⟨_, him⟩ | ⟨hba, _⟩
      · exact fun hc => hc.2 him
      · exact fun hc => hc.1 hba
    rw [if_neg hc1, if_neg hc2]
    cases hoc : inp.gcloud_component with
    | none => exact ⟨fun he => Except.noConfusion he, fun he => Except.noConfusion he⟩
    | some c =>
      dsimp only
      by_cases hcc : c ≠ "alpha" ∧ c ≠ "beta"
      · rw [if_pos hcc]
        constructor
        · intro he
          injection he with h3
          exact hne1 c h3
        · intro he
          injection he with h3
          exact hne2 c h3
      · rw [if_neg hcc]
        exact ⟨fun he => Except.noConfusion he, fun he => Except.noConfusion he⟩

theorem c6_exactly_one_of_artifacts_images_witness :
    inpW.name ≠ "" ∧ inpW.delivery_pipeline ≠ "" ∧
    (((inpW.build_artifacts = "" ∧ inpW.images = []) →
      validateInputs inpW =
        .error "One of `build_artifacts` and `images` inputs must be supplied.") ∧
    ((inpW.build_artifacts ≠ "" ∧ inpW.images ≠ []) →
      validateInputs inpW =
        .error "Both `build_artifacts` and `images` inputs set - please select only one.") ∧
    (((inpW.build_artifacts ≠ "" ∧ inpW.images = []) ∨
        (inpW.build_artifacts = "" ∧ inpW.images ≠ [])) →
      validateInputs inpW ≠
        .error "One of `build_artifacts` and `images` inputs must be supplied." ∧
      validateInputs inpW ≠
        .error "Both `build_artifacts` and `images` inputs set - please select only one.")) :=
  ⟨by decide, by decide,
    c6_exactly_one_of_artifacts_images inpW (by decide) (by decide)⟩

/-- C7: for every valid input set the assembled command ends with the two
tokens --format json placed after the user-supplied extra flags, and when a
gcloud component selector was supplied it is the very first token. -/
theorem c7_format_forced_component_first (inp : Inputs) (env : GithubEnv)
    (flagList : List String) (_hv : validateInputs inp = .ok ()) :
    (∃ pre, buildCmd inp env flagList =
      (pre ++ (if inp.flags ≠ "" then flagList else [])) ++ ["--format", "json"]) ∧
    (∀ c, inp.gcloud_component = some c →
      ∃ rest, buildCmd inp env flagList = c :: rest) := by
  constructor
  · simp only [buildCmd]
    exact suffix_with inp.gcloud_component _ _ _
  · intro c hc
    simp only [buildCmd, hc, withComponent]
    exact ⟨_, rfl⟩

theorem c7_format_forced_component_first_witness :
    validateInputs inpW = .ok () ∧
    ((∃ pre, buildCmd inpW envW flagListW =
      (pre ++ (if inpW.flags ≠ "" then flagListW else [])) ++ ["--format", "json"]) ∧
    (∀ c, inpW.gcloud_component = some c →
      ∃ rest, buildCmd inpW envW flagListW = c :: rest)) :=
  ⟨rfl, c7_format_forced_component_first inpW envW flagListW rfl⟩

/-- C8: for every valid input set the built command carries an --annotations
flag and a --labels flag whose values encode the spread merge of the defaults
with the user records, and in that merge a user-supplied key overrides the
same-named default while keys only in the defaults are preserved. -/
theorem c8_defaults_merged_user_overrides (inp : Inputs) (env : GithubEnv)
    (flagList : List String) (_hv : validateInputs inp = .ok ()) :
    hasFlagPair (buildCmd inp env flagList) "--annotations"
      (joinKVString (objectAssign (getDefaultAnnotations env) inp.annotations)) ∧
    hasFlagPair (buildCmd inp env flagList) "--labels"
      (joinKVString (objectAssign getDefaultLabels inp.labels)) ∧
    (∀ k v, kvLookup k inp.annotations = some v →
      kvLookup k (objectAssign (getDefaultAnnotations env) inp.annotations) = some v) ∧
    (∀ k, kvLookup k inp.annotations = none →
      kvLookup k (objectAssign (getDefaultAnnotations env) inp.annotations) =
        kvLookup k (getDefaultAnnotations env)) ∧
    (∀ k v, kvLookup k inp.labels = some v →
      kvLookup k (objectAssign getDefaultLabels inp.labels) = some v) ∧
    (∀ k, kvLookup k inp.labels = none →
      kvLookup k (objectAssign getDefaultLabels inp.labels) = kvLookup k getDefaultLabels) := by
  refine ⟨?_, ?_,
    fun k v h => objectAssign_user_wins _ _ k v h,
    fun k h => objectAssign_default_kept _ _ k h,
    fun k v h => objectAssign_user_wins _ _ k v h,
    fun k h => objectAssign_default_kept _ _ k h⟩
  · simp only [buildCmd]
    exact hasFlagPair_withComponent _
      (hasFlagPair_extend (hasFlagPair_extend (hasFlagPair_extend (hasFlagPair_extend
        (hasFlagPair_prepend _ (hasFlagPair_self _ _ _)) _) _) _) _)
  · simp only [buildCmd]
    exact hasFlagPair_withComponent _
      (hasFlagPair_extend (hasFlagPair_extend (hasFlagPair_extend
        (hasFlagPair_prepend _ (hasFlagPair_self _ _ _)) _) _) _)

theorem c8_defaults_merged_user_overrides_witness :
    validateInputs inpKV = .ok () ∧
    (hasFlagPair (buildCmd inpKV envW flagListW) "--annotations"
      (joinKVString (objectAssign (getDefaultAnnotations envW) inpKV.annotations)) ∧
    hasFlagPair (buildCmd inpKV envW flagListW) "--labels"
      (joinKVString (objectAssign getDefaultLabels inpKV.labels)) ∧
    (∀ k v, kvLookup k inpKV.annotations = some v →
      kvLookup k (objectAssign (getDefaultAnnotations envW) inpKV.annotations) = some v) ∧
    (∀ k, kvLookup k inpKV.annotations = none →
      kvLookup k (objectAssign (getDefaultAnnotations envW) inpKV.annotations) =
        kvLookup k (getDefaultAnnotations envW)) ∧
    (∀ k v, kvLookup k inpKV.labels = some v →
      kvLookup k (objectAssign getDefaultLabels inpKV.labels) = some v) ∧
    (∀ k, kvLookup k inpKV.labels = none →
      kvLookup k (objectAssign getDefaultLabels inpKV.labels) = kvLookup k getDefaultLabels)) :=
  ⟨rfl, c8_defaults_merged_user_overrides inpKV envW flagListW rfl⟩

/-- C9: whenever the try body of the orchestrator fails at any modelled stage
(validation, execution, or parsing) the run reports exactly one failure
message, the triggering message wrapped in the fixed prefix, and publishes no
outputs; and whenever the body succeeds the run publishes both outputs. -/
theorem c9_single_wrapped_failure_or_both_outputs (inp : Inputs) (env : GithubEnv)
    (flagList : List String) (jsonParse : String → Except String Json)
    (toolCommand : String) (exec : List String → ExecOutput) :
    (∀ e, runBody inp env flagList jsonParse toolCommand exec = .error e →
      run inp env flagList jsonParse toolCommand exec =
        .failed ("create-cloud-deploy-release failed with: " ++ e)) ∧
    (∀ o, runBody inp env flagList jsonParse toolCommand exec = .ok o →
      run inp env flagList jsonParse toolCommand exec = .success o.name o.link) := by
  constructor
  · intro e he
    simp only [run, he, errorMessage]
  · intro o ho
    simp only [run, ho]

theorem c9_single_wrapped_failure_or_both_outputs_witness :
    runBody inpNoName envW flagListW c3Jp "gcloud" execOkW = .error "No release name set." ∧
    run inpNoName envW flagListW c3Jp "gcloud" execOkW =
      .failed "create-cloud-deploy-release failed with: No release name set." :=
  ⟨rfl,
    (c9_single_wrapped_failure_or_both_outputs inpNoName envW flagListW c3Jp "gcloud" execOkW).1
      "No release name set." rfl⟩
